import Mathlib

/-!
Verification of the hass-bluecon session/notification core.

The definitions in this file are a shallow embedding of the repository's
Python sources, chiefly `custom_components/bluecon/bluecon/BlueConAPI.py`
(the `BlueConAPI` facade: token refresh, app-token registration, the
push-notification listener callback `on_notification`, acknowledgment,
listener shutdown) and
`custom_components/bluecon/bluecon/notifications/NotificationBuilder.py`
(discriminator dispatch of raw push payloads into typed notifications).

Collaborator classes whose source files are not part of the repository
snapshot (`OAuthToken`, `OAuthService`, the storage backends, the concrete
notification classes) are modelled from the specification; each such
definition carries a doc comment saying so. External effects (HTTP
exchanges, the FCM provider, thread timing) are supplied as explicit
environment values so the control flow of the embedded code stays exactly
the control flow of the source.
-/

namespace BlueCon

/-- Python's `needle in haystack` on strings, as used by the dedup check on
line 205 of BlueConAPI.py: true iff `needle` occurs as a contiguous
substring of `haystack` (the empty needle occurs in every string). -/
def pyIn (needle haystack : String) : Bool :=
  (List.range (haystack.data.length + 1)).any fun i =>
    ((haystack.data.drop i).take needle.data.length) == needle.data

/-- Every string is a substring of itself. -/
theorem pyIn_refl (s : String) : pyIn s s = true := by
  unfold pyIn
  rw [List.any_eq_true]
  exact ⟨0, by simp, by simp⟩

/-- Typed notifications. Modelled from the spec: the `CallNotification` and
`CallEndNotification` class files are absent from the snapshot; the spec
says the CallStarted variant carries device and access-door identity plus
the vendor (FCM) message id, and the CallEnded variant carries device
identity. -/
inductive Notification where
  | callStarted (deviceId accessDoorId fcmMessageId : String)
  | callEnded (deviceId : String)
deriving DecidableEq

/-- Raw push payload as consumed by `NotificationBuilder.fromNotification`:
a dict with the discriminator field `FermaxNotificationType` plus the
payload fields the variant constructors read. -/
structure RawNotification where
  fermaxNotificationType : String
  deviceId : String
  accessDoorId : String
deriving DecidableEq

/-- Decode failure: the builder raises (`NotImplementedError` in the source;
`DecodeError` in the spec's taxonomy) on an unrecognized discriminator. -/
inductive DecodeError where
  | unrecognizedDiscriminator
deriving DecidableEq

/-- NotificationBuilder.fromNotification (NotificationBuilder.py lines
6-13): dispatch on the `FermaxNotificationType` discriminator; `"Call"`
builds a CallStarted notification (receiving the message id), `"CallEnd"`
builds a CallEnded notification, anything else raises. -/
def fromNotification (n : RawNotification) (notificationId : String) :
    Except DecodeError Notification :=
  if n.fermaxNotificationType = "Call" then
    .ok (.callStarted n.deviceId n.accessDoorId notificationId)
  else if n.fermaxNotificationType = "CallEnd" then
    .ok (.callEnded n.deviceId)
  else
    .error .unrecognizedDiscriminator

/-- Environment outcome of the acknowledgment HTTP exchange, if one is
attempted: the server answered with `status code`, or the request raised a
transport error. -/
inductive AckOutcome where
  | status (code : Nat)
  | raised
deriving DecidableEq

/-- Core of `acknowledgeNotification` (BlueConAPI.py lines 130-141): when
the notification should be acknowledged, one HTTP POST is made and the
call returns `status == 200` (or the transport error propagates, modelled
as `.error ()`); otherwise no HTTP call is made and the Python function
falls off the end, returning `None` (modelled as `.ok none`). The result
pairs the returned value with the number of HTTP calls made. -/
def ackCore (should : Bool) (o : AckOutcome) : Except Unit (Option Bool) × Nat :=
  if should then
    match o with
    | .status c => (.ok (some (c == 200)), 1)
    | .raised => (.error (), 1)
  else
    (.ok none, 0)

/-- View of a notification as `acknowledgeNotification` consumes it: only
`shouldAcknowledge()` and `getFcmMessageId()` are called on it. The
concrete notification classes are absent from the snapshot, so the
acknowledgment-requirement flag is carried abstractly, as the spec
describes it. -/
structure AckNotification where
  shouldAcknowledge : Bool
  fcmMessageId : String
deriving DecidableEq

/-- acknowledgeNotification (BlueConAPI.py lines 130-141) applied to a
notification, given the outcome of the HTTP exchange. -/
def acknowledgeNotification (o : AckOutcome) (n : AckNotification) :
    Except Unit (Option Bool) × Nat :=
  ackCore n.shouldAcknowledge o

/-- Observable events of the listener callback, in the order the handler
performs them. -/
inductive Event where
  | storedId (id : String)
  | decodeOk (n : Notification)
  | decodeFailed
  | ackHttp
  | ackRaised
  | callbackInvoked (n : Notification)
deriving DecidableEq

/-- The `data_message` argument of `on_notification`: the provider-assigned
persistent id and the message id handed to the builder. -/
structure DataMessage where
  persistent_id : String
  id : String
deriving DecidableEq

/-- One inbound push message together with its environment: the raw
payload, the data message, and the outcome the acknowledgment HTTP
exchange would have if attempted. -/
structure InboundMessage where
  notification : RawNotification
  dataMessage : DataMessage
  ackOutcome : AckOutcome
deriving DecidableEq

/-- State of the persistent-id log. Modelled from the spec: the
NotificationInfoStore keeps an append-only log of seen ids
(`FileNotificationInfoStorage` is absent from the snapshot); retrieval
yields `none` when nothing was ever stored, as `on_notification`'s
None-check expects. -/
def storePersistentId (st : Option (List String)) (id : String) :
    Option (List String) :=
  match st with
  | none => some [id]
  | some ids => some (ids ++ [id])

/-- The dedup check of `on_notification` (BlueConAPI.py line 205):
`received_persistent_ids is not None and any(idstr in x for x in
received_persistent_ids)` — note `in` is Python substring containment. -/
def isDuplicate (st : Option (List String)) (idstr : String) : Bool :=
  match st with
  | none => false
  | some ids => ids.any fun x => pyIn idstr x

/-- on_notification (BlueConAPI.py lines 200-212): extract the persistent
id; if the dedup check fires, return silently; otherwise store the id,
decode via the builder (a raised decode error propagates, ending
processing of this message), acknowledge (a raised transport error
propagates, skipping the callback), then invoke the callback with the
decoded notification. Returns the new log state and the ordered event
trace. `shouldAck` is the acknowledgment-requirement flag of the decoded
notification (abstract, as the concrete notification classes are absent
from the snapshot). -/
def on_notification (shouldAck : Notification → Bool)
    (st : Option (List String)) (m : InboundMessage) :
    Option (List String) × List Event :=
  let idstr := m.dataMessage.persistent_id
  if isDuplicate st idstr then
    (st, [])
  else
    let st' := storePersistentId st idstr
    match fromNotification m.notification m.dataMessage.id with
    | .error _ => (st', [.storedId idstr, .decodeFailed])
    | .ok n =>
      let ack := ackCore (shouldAck n) m.ackOutcome
      let ackEvents : List Event := if ack.2 = 0 then [] else [.ackHttp]
      match ack.1 with
      | .error _ =>
        (st', [.storedId idstr, .decodeOk n] ++ ackEvents ++ [.ackRaised])
      | .ok _ =>
        (st', [.storedId idstr, .decodeOk n] ++ ackEvents ++ [.callbackInvoked n])

/-- Process a sequence of inbound messages in delivery order, threading the
persistent-id log and concatenating the event traces. -/
def runMessages (shouldAck : Notification → Bool)
    (st : Option (List String)) : List InboundMessage → Option (List String) × List Event
  | [] => (st, [])
  | m :: ms =>
    let r := on_notification shouldAck st m
    let r' := runMessages shouldAck r.1 ms
    (r'.1, r.2 ++ r'.2)

/-- Whether an event is a callback invocation. -/
def isCallback : Event → Bool
  | .callbackInvoked _ => true
  | _ => false

/-- Number of callback invocations in a trace. -/
def callbackCount (evs : List Event) : Nat := evs.countP isCallback

/-- The callback invocations of a trace, in order. -/
def callbackEvents (evs : List Event) : List Event := evs.filter isCallback

/-- OAuth token. Modelled from the spec: accessToken, refreshToken and an
expiry timestamp (the `OAuthToken` source file is absent from the
snapshot). -/
structure OAuthToken where
  accessToken : String
  refreshToken : String
  expiry : Int
deriving DecidableEq

/-- Modelled from the spec: a token past expiry must be refreshed before
use; `isExpired` compares the stored expiry against the current time
(the `OAuthToken` source file is absent from the snapshot). -/
def OAuthToken.isExpired (now : Int) (t : OAuthToken) : Bool :=
  decide (t.expiry ≤ now)

/-- Environment of one `__getOrRefreshOAuthToken` call: the current time
and what the refresh exchange would return. -/
structure OAuthEnv where
  now : Int
  newAccessToken : String
  newRefreshToken : String
  lifetime : Int
deriving DecidableEq

/-- Modelled from the spec: `OAuthService.updateOAuthToken` performs the
refresh HTTP exchange and returns a fresh token valid for `lifetime`
seconds from now (the `OAuthService` source file is absent from the
snapshot). -/
def updateOAuthToken (env : OAuthEnv) (_t : OAuthToken) : OAuthToken :=
  ⟨env.newAccessToken, env.newRefreshToken, env.now + env.lifetime⟩

/-- Token-side observable events, in order. -/
inductive TokenEvent where
  | refreshExchange
  | storeToken (t : OAuthToken)
deriving DecidableEq

/-- getOrRefreshOAuthToken (BlueConAPI.py lines 100-105): retrieve the
stored token; if expired, refresh it via OAuthService and store the
refreshed token; return it. Result: (returned token, token stored after
the call, ordered event trace). -/
def getOrRefreshOAuthToken (env : OAuthEnv) (stored : OAuthToken) :
    OAuthToken × OAuthToken × List TokenEvent :=
  if stored.isExpired env.now then
    let t := updateOAuthToken env stored
    (t, t, [.refreshExchange, .storeToken t])
  else
    (stored, stored, [])

/-- Number of refresh exchanges in a token event trace. -/
def refreshCount (evs : List TokenEvent) : Nat :=
  evs.countP fun e => e == TokenEvent.refreshExchange

/-- Provider credentials as `registerAppToken` reads them:
`credentials["fcm"]["token"]`. -/
structure FcmCredentials where
  fcmToken : String
deriving DecidableEq

/-- The part of the `BlueConAPI` instance and notification-info storage
state that `registerAppToken` touches: the cached `deviceId` field and
the stored credentials record. -/
structure RegistrarState where
  deviceId : Option String
  storedCredentials : Option FcmCredentials
deriving DecidableEq

/-- Environment of one `registerAppToken` call: what the provider (FCM)
registration would return, and the HTTP status of the apptoken POST. -/
structure RegistrarEnv where
  providerResult : FcmCredentials
  apptokenStatus : Nat
deriving DecidableEq

/-- Registrar-side observable events, in order. -/
inductive RegEvent where
  | fcmRegister
  | storeCredentials
  | apptokenPost
deriving DecidableEq

/-- registerAppToken (BlueConAPI.py lines 143-180): when `deviceId` is
unset, retrieve stored credentials; when those are also absent, call the
provider's registration endpoint and store the result; cache the device
token in `deviceId`. In every case, POST the apptoken to the vendor
backend and return `status == 200`. -/
def registerAppToken (env : RegistrarEnv) (st : RegistrarState) :
    Bool × RegistrarState × List RegEvent :=
  match st.deviceId with
  | some _ => (env.apptokenStatus == 200, st, [.apptokenPost])
  | none =>
    match st.storedCredentials with
    | some c =>
      (env.apptokenStatus == 200, { st with deviceId := some c.fcmToken },
        [.apptokenPost])
    | none =>
      let c := env.providerResult
      (env.apptokenStatus == 200,
        { deviceId := some c.fcmToken, storedCredentials := some c },
        [.fcmRegister, .storeCredentials, .apptokenPost])

/-- Number of provider (FCM) registration calls in a registrar trace. -/
def fcmRegisterCount (evs : List RegEvent) : Nat :=
  evs.countP fun e => e == RegEvent.fcmRegister

/-- buildPackageCert (BlueConAPI.py lines 145-152): the sequential
`sha.update` calls feed the five fields — `str(senderId)`, appId, apiKey,
projectId, packageName, in that order — to one digest over their
concatenation. The digest itself (hashlib sha512 hexdigest) is an
external-library primitive and is abstracted as the `digest` argument. -/
def buildPackageCert (digest : String → String) (senderId : Int)
    (appId apiKey projectId packageName : String) : String :=
  digest (toString senderId ++ appId ++ apiKey ++ projectId ++ packageName)

/-- Thread join/is_alive semantics for the listener thread: `finishTime`
is the number of seconds after the join begins at which the thread
terminates (`none` if it keeps running). After `join(T)` the thread
is alive iff it did not terminate within `T` seconds. -/
def threadAliveAfterJoin (finishTime : Option Nat) (timeoutSecs : Nat) : Bool :=
  match finishTime with
  | none => true
  | some t => decide (timeoutSecs < t)

/-- stopNotificationListener (BlueConAPI.py lines 218-220): join the
listener thread with a 10-second timeout and return `is_alive()`. Total
by construction: it returns a Bool in both cases and raises nothing. -/
def stopNotificationListener (finishTime : Option Nat) : Bool :=
  threadAliveAfterJoin finishTime 10

/-! ## Helper lemmas about the listener pipeline -/

/-- Filtering callbacks distributes over trace concatenation. -/
theorem callbackEvents_append (l₁ l₂ : List Event) :
    callbackEvents (l₁ ++ l₂) = callbackEvents l₁ ++ callbackEvents l₂ :=
  List.filter_append ..

/-- The callback count of a trace is the length of its callback events. -/
theorem callbackCount_eq_length (evs : List Event) :
    callbackCount evs = (callbackEvents evs).length :=
  List.countP_eq_length_filter ..

/-- A message whose dedup check fires is dropped: state unchanged, no
events. -/
theorem on_notification_dup (shouldAck : Notification → Bool)
    (st : Option (List String)) (m : InboundMessage)
    (hdup : isDuplicate st m.dataMessage.persistent_id = true) :
    on_notification shouldAck st m = (st, []) := by
  unfold on_notification
  simp [hdup]

/-- A fresh message that decodes successfully and whose acknowledgment
exchange does not raise stores its id and fires the callback exactly
once, with the decoded notification. -/
theorem on_notification_fresh_callback (shouldAck : Notification → Bool)
    (st : Option (List String)) (m : InboundMessage) (n : Notification)
    (hnew : isDuplicate st m.dataMessage.persistent_id = false)
    (hdec : fromNotification m.notification m.dataMessage.id = .ok n)
    (ho : m.ackOutcome ≠ .raised) :
    (on_notification shouldAck st m).1 =
        storePersistentId st m.dataMessage.persistent_id ∧
    callbackEvents (on_notification shouldAck st m).2 = [.callbackInvoked n] := by
  obtain ⟨c, hc⟩ : ∃ c, m.ackOutcome = .status c := by
    cases h : m.ackOutcome with
    | status c => exact ⟨c, rfl⟩
    | raised => exact absurd h ho
  cases hsa : shouldAck n <;>
    simp [on_notification, hnew, hdec, ackCore, hsa, hc, callbackEvents, isCallback]

/-! ## Claim theorems -/

/-- C4: decoding a raw notification whose `FermaxNotificationType` is
`"Call"` yields the CallStarted variant, `"CallEnd"` yields the CallEnded
variant, and every other discriminator is a decode error, not a silent
drop. -/
theorem C4_fromNotification_dispatch (raw : RawNotification) (nid : String) :
    (raw.fermaxNotificationType = "Call" →
      fromNotification raw nid =
        .ok (.callStarted raw.deviceId raw.accessDoorId nid)) ∧
    (raw.fermaxNotificationType = "CallEnd" →
      fromNotification raw nid = .ok (.callEnded raw.deviceId)) ∧
    (raw.fermaxNotificationType ≠ "Call" → raw.fermaxNotificationType ≠ "CallEnd" →
      fromNotification raw nid = .error .unrecognizedDiscriminator) := by
  refine ⟨fun h => ?_, fun h => ?_, fun h1 h2 => ?_⟩
  · simp [fromNotification, h]
  · simp [fromNotification, h]
  · simp [fromNotification, h1, h2]

/-- Witness for C4 at the three concrete discriminators. -/
theorem C4_fromNotification_dispatch_witness :
    fromNotification ⟨"Call", "dev1", "door1"⟩ "n1" =
      .ok (.callStarted "dev1" "door1" "n1") ∧
    fromNotification ⟨"CallEnd", "dev1", "door1"⟩ "n1" =
      .ok (.callEnded "dev1") ∧
    fromNotification ⟨"Other", "dev1", "door1"⟩ "n1" =
      .error .unrecognizedDiscriminator :=
  ⟨(C4_fromNotification_dispatch ⟨"Call", "dev1", "door1"⟩ "n1").1 rfl,
   (C4_fromNotification_dispatch ⟨"CallEnd", "dev1", "door1"⟩ "n1").2.1 rfl,
   (C4_fromNotification_dispatch ⟨"Other", "dev1", "door1"⟩ "n1").2.2
     (by decide) (by decide)⟩

/-- C10: `acknowledgeNotification` makes no HTTP call and returns Python
`None` (not a Bool) when the notification should not be acknowledged;
when it should be and the exchange answers with status `c`, it makes one
HTTP call and returns the Bool `c == 200`. -/
theorem C10_acknowledge_none_when_not_required (o : AckOutcome)
    (n : AckNotification) :
    (n.shouldAcknowledge = false →
      acknowledgeNotification o n = (.ok none, 0)) ∧
    (∀ c, n.shouldAcknowledge = true → o = .status c →
      acknowledgeNotification o n = (.ok (some (c == 200)), 1)) := by
  refine ⟨fun h => ?_, fun c h ho => ?_⟩
  · simp [acknowledgeNotification, ackCore, h]
  · subst ho; simp [acknowledgeNotification, ackCore, h]

/-- Witness for C10: a notification not requiring acknowledgment returns
`None` with no HTTP call; one requiring it returns `false` on a 500. -/
theorem C10_acknowledge_none_when_not_required_witness :
    acknowledgeNotification (.status 500) ⟨false, "f1"⟩ = (.ok none, 0) ∧
    acknowledgeNotification (.status 500) ⟨true, "f1"⟩ =
      (.ok (some (500 == 200)), 1) :=
  ⟨(C10_acknowledge_none_when_not_required (.status 500) ⟨false, "f1"⟩).1 rfl,
   (C10_acknowledge_none_when_not_required (.status 500) ⟨true, "f1"⟩).2
     500 rfl rfl⟩

/-- C9: `stopNotificationListener` returns false exactly when the listener
thread terminates within the 10-second timeout window, and true when it
is still alive; it is total, so neither case raises. -/
theorem C9_stop_reports_liveness (finishTime : Option Nat) :
    stopNotificationListener finishTime = false ↔
      ∃ t, finishTime = some t ∧ t ≤ 10 := by
  cases finishTime with
  | none => simp [stopNotificationListener, threadAliveAfterJoin]
  | some t =>
    simp only [stopNotificationListener, threadAliveAfterJoin,
      decide_eq_false_iff_not, not_lt, Option.some.injEq]
    constructor
    · exact fun h => ⟨t, rfl, h⟩
    · rintro ⟨t', ht', h⟩; omega

/-- C8: the package certificate is the abstract digest of exactly the
concatenation of `str(senderId)`, appId, apiKey, projectId and
packageName, in that fixed order, so equal inputs always yield an equal
certificate. -/
theorem C8_buildPackageCert_deterministic (digest : String → String)
    (s s' : Int) (a a' k k' p p' n n' : String) :
    buildPackageCert digest s a k p n =
      digest (toString s ++ a ++ k ++ p ++ n) ∧
    (s = s' → a = a' → k = k' → p = p' → n = n' →
      buildPackageCert digest s a k p n =
        buildPackageCert digest s' a' k' p' n') := by
  refine ⟨rfl, fun h1 h2 h3 h4 h5 => ?_⟩
  subst h1; subst h2; subst h3; subst h4; subst h5; rfl

/-- Witness for C8 at concrete inputs, with the identity as the digest. -/
theorem C8_buildPackageCert_deterministic_witness :
    buildPackageCert id 7 "app" "key" "proj" "pkg" =
      id (toString (7 : Int) ++ "app" ++ "key" ++ "proj" ++ "pkg") ∧
    buildPackageCert id 7 "app" "key" "proj" "pkg" =
      buildPackageCert id 7 "app" "key" "proj" "pkg" :=
  ⟨(C8_buildPackageCert_deterministic id 7 7 "app" "app" "key" "key"
      "proj" "proj" "pkg" "pkg").1,
   (C8_buildPackageCert_deterministic id 7 7 "app" "app" "key" "key"
      "proj" "proj" "pkg" "pkg").2 rfl rfl rfl rfl rfl⟩

/-- C7: the dedup check is substring containment, not equality — a message
whose persistent id occurs as a substring of any stored id (even a
distinct one) is silently discarded: the id is not stored, no
acknowledgment is sent, the callback is not invoked. -/
theorem C7_substring_dedup_discards (shouldAck : Notification → Bool)
    (ids : List String) (m : InboundMessage) (x : String)
    (hx : x ∈ ids) (hsub : pyIn m.dataMessage.persistent_id x = true) :
    on_notification shouldAck (some ids) m = (some ids, []) := by
  have hdup : isDuplicate (some ids) m.dataMessage.persistent_id = true := by
    simp only [isDuplicate, List.any_eq_true]
    exact ⟨x, hx, hsub⟩
  unfold on_notification
  simp [hdup]

/-- Witness for C7: id "x" is distinct from the stored id "xy" yet is a
substring of it, so the message is dropped whole. -/
theorem C7_substring_dedup_discards_witness :
    on_notification (fun _ => true) (some ["xy"])
      ⟨⟨"Call", "d", "o"⟩, ⟨"x", "f1"⟩, .status 200⟩ = (some ["xy"], []) ∧
    "x" ≠ "xy" :=
  ⟨C7_substring_dedup_discards (fun _ => true) ["xy"]
      ⟨⟨"Call", "d", "o"⟩, ⟨"x", "f1"⟩, .status 200⟩ "xy"
      (by decide) (by decide),
   by decide⟩

/-- C6 counterexample: the incoming id "x" is not a member of the stored
seen-set ["xy"], yet the handler records nothing and performs no further
processing — the dedup check of line 205 is substring containment, so
the claim's membership-based hypothesis does not guarantee the store. -/
theorem C6_counterexample_nonmember_not_recorded :
    ("x" : String) ∉ (["xy"] : List String) ∧
    on_notification (fun _ => true) (some ["xy"])
      ⟨⟨"Call", "d", "o"⟩, ⟨"x", "f1"⟩, .status 200⟩ = (some ["xy"], []) := by
  decide

/-- C6 amended: for a message whose id is not matched by the substring
dedup check against the stored ids (rather than merely not a member of
the seen-set), the first event of the handler's trace is the store of
that id — the dedup write precedes decoding, the acknowledgment call and
the callback — and the persistent log after the call is the stored-in
log. -/
theorem C6_store_first (shouldAck : Notification → Bool)
    (st : Option (List String)) (m : InboundMessage)
    (hnew : isDuplicate st m.dataMessage.persistent_id = false) :
    (on_notification shouldAck st m).2.head? =
      some (.storedId m.dataMessage.persistent_id) ∧
    (on_notification shouldAck st m).1 =
      storePersistentId st m.dataMessage.persistent_id := by
  cases hdec : fromNotification m.notification m.dataMessage.id with
  | error e => simp [on_notification, hnew, hdec]
  | ok n =>
    cases hsa : shouldAck n <;> cases ho : m.ackOutcome <;>
      simp [on_notification, hnew, hdec, ackCore, hsa, ho]

/-- Witness for C6 on a fresh message against an empty log. -/
theorem C6_store_first_witness :
    (on_notification (fun _ => true) none
        ⟨⟨"Call", "d", "o"⟩, ⟨"p1", "f1"⟩, .status 200⟩).2.head? =
      some (.storedId "p1") ∧
    (on_notification (fun _ => true) none
        ⟨⟨"Call", "d", "o"⟩, ⟨"p1", "f1"⟩, .status 200⟩).1 =
      storePersistentId none "p1" :=
  C6_store_first (fun _ => true) none
    ⟨⟨"Call", "d", "o"⟩, ⟨"p1", "f1"⟩, .status 200⟩ rfl

/-- C5: when the notification-info storage already holds credentials,
`registerAppToken` performs zero provider (FCM) registration calls and
caches the stored device token; a second call with the same parameters
again performs zero provider registrations. -/
theorem C5_register_idempotent (env : RegistrarEnv) (st : RegistrarState)
    (c : FcmCredentials) (hc : st.storedCredentials = some c) :
    fcmRegisterCount (registerAppToken env st).2.2 = 0 ∧
    (st.deviceId = none →
      (registerAppToken env st).2.1.deviceId = some c.fcmToken) ∧
    fcmRegisterCount
      (registerAppToken env (registerAppToken env st).2.1).2.2 = 0 := by
  cases hd : st.deviceId with
  | some d =>
    refine ⟨?_, ?_, ?_⟩
    · simp [registerAppToken, hd, fcmRegisterCount]
    · intro h; exact Option.noConfusion h
    · simp [registerAppToken, hd, fcmRegisterCount]
  | none =>
    refine ⟨?_, fun _ => ?_, ?_⟩ <;>
      simp [registerAppToken, hd, hc, fcmRegisterCount]

/-- Witness for C5 with stored credentials and an unset device id. -/
theorem C5_register_idempotent_witness :
    fcmRegisterCount
      (registerAppToken ⟨⟨"prov"⟩, 200⟩ ⟨none, some ⟨"tok1"⟩⟩).2.2 = 0 ∧
    ((⟨none, some ⟨"tok1"⟩⟩ : RegistrarState).deviceId = none →
      (registerAppToken ⟨⟨"prov"⟩, 200⟩ ⟨none, some ⟨"tok1"⟩⟩).2.1.deviceId =
        some "tok1") ∧
    fcmRegisterCount
      (registerAppToken ⟨⟨"prov"⟩, 200⟩
        (registerAppToken ⟨⟨"prov"⟩, 200⟩ ⟨none, some ⟨"tok1"⟩⟩).2.1).2.2 = 0 :=
  C5_register_idempotent ⟨⟨"prov"⟩, 200⟩ ⟨none, some ⟨"tok1"⟩⟩ ⟨"tok1"⟩ rfl

/-- C3: with an expired stored token and a refresh exchange granting a
positive lifetime, `__getOrRefreshOAuthToken` returns a token whose
expiry is in the future, performs exactly one refresh exchange, and the
trace is refresh-then-store of the returned token (persisted before
returning); with a non-expired stored token it returns it unchanged with
no refresh and no store. -/
theorem C3_token_refresh (env : OAuthEnv) (stored : OAuthToken) :
    (stored.expiry < env.now → 0 < env.lifetime →
      env.now < (getOrRefreshOAuthToken env stored).1.expiry ∧
      refreshCount (getOrRefreshOAuthToken env stored).2.2 = 1 ∧
      (getOrRefreshOAuthToken env stored).2.1 =
        (getOrRefreshOAuthToken env stored).1 ∧
      (getOrRefreshOAuthToken env stored).2.2 =
        [.refreshExchange, .storeToken (getOrRefreshOAuthToken env stored).1]) ∧
    (stored.isExpired env.now = false →
      getOrRefreshOAuthToken env stored = (stored, stored, [])) := by
  constructor
  · intro hpast hlife
    have hexp : stored.isExpired env.now = true := by
      simp only [OAuthToken.isExpired, decide_eq_true_eq]; omega
    refine ⟨?_, ?_, ?_, ?_⟩ <;>
      simp [getOrRefreshOAuthToken, hexp, updateOAuthToken, refreshCount]
    omega
  · intro hvalid
    simp [getOrRefreshOAuthToken, hvalid]

/-- Witness for C3: an expired token (expiry 10, now 100, lifetime 50) is
refreshed and stored; a live token (expiry 200, now 100) passes through
untouched. -/
theorem C3_token_refresh_witness :
    ((100 : Int) <
        (getOrRefreshOAuthToken ⟨100, "na", "nr", 50⟩ ⟨"a", "r", 10⟩).1.expiry ∧
      refreshCount
        (getOrRefreshOAuthToken ⟨100, "na", "nr", 50⟩ ⟨"a", "r", 10⟩).2.2 = 1 ∧
      (getOrRefreshOAuthToken ⟨100, "na", "nr", 50⟩ ⟨"a", "r", 10⟩).2.1 =
        (getOrRefreshOAuthToken ⟨100, "na", "nr", 50⟩ ⟨"a", "r", 10⟩).1 ∧
      (getOrRefreshOAuthToken ⟨100, "na", "nr", 50⟩ ⟨"a", "r", 10⟩).2.2 =
        [.refreshExchange,
         .storeToken (getOrRefreshOAuthToken ⟨100, "na", "nr", 50⟩
            ⟨"a", "r", 10⟩).1]) ∧
    getOrRefreshOAuthToken ⟨100, "na", "nr", 50⟩ ⟨"a", "r", 200⟩ =
      (⟨"a", "r", 200⟩, ⟨"a", "r", 200⟩, []) :=
  ⟨(C3_token_refresh ⟨100, "na", "nr", 50⟩ ⟨"a", "r", 10⟩).1
      (by decide) (by decide),
   (C3_token_refresh ⟨100, "na", "nr", 50⟩ ⟨"a", "r", 200⟩).2 (by decide)⟩

/-- C2 counterexample: a message that decodes to an ack-requiring
notification whose acknowledgment request raises a transport error
produces a trace whose acknowledgment attempt raised and that contains no
callback invocation — the raised transport error does prevent delivery,
refuting the claim at this input. -/
theorem C2_counterexample_transport_error_blocks :
    (on_notification (fun _ => true) none
        ⟨⟨"Call", "d", "o"⟩, ⟨"p1", "f1"⟩, .raised⟩).2 =
      [.storedId "p1", .decodeOk (.callStarted "d" "o" "f1"),
       .ackHttp, .ackRaised] ∧
    callbackCount (on_notification (fun _ => true) none
        ⟨⟨"Call", "d", "o"⟩, ⟨"p1", "f1"⟩, .raised⟩).2 = 0 := by
  decide

/-- C2 amended: an acknowledgment failure reported as a non-2xx HTTP
response (any status code, 500 included) does not prevent the callback
from being invoked with the decoded notification; only a raised transport
error does. -/
theorem C2_status_failure_does_not_block (shouldAck : Notification → Bool)
    (st : Option (List String)) (raw : RawNotification) (dm : DataMessage)
    (c : Nat) (n : Notification)
    (hnew : isDuplicate st dm.persistent_id = false)
    (hdec : fromNotification raw dm.id = .ok n) :
    callbackEvents (on_notification shouldAck st ⟨raw, dm, .status c⟩).2 =
      [.callbackInvoked n] :=
  (on_notification_fresh_callback shouldAck st ⟨raw, dm, .status c⟩ n
    hnew hdec (by simp)).2

/-- Witness for the amended C2: a 500 on the acknowledgment still delivers
the decoded notification to the callback. -/
theorem C2_status_failure_does_not_block_witness :
    callbackEvents (on_notification (fun _ => true) none
        ⟨⟨"Call", "d", "o"⟩, ⟨"p2", "f2"⟩, .status 500⟩).2 =
      [.callbackInvoked (.callStarted "d" "o" "f2")] :=
  C2_status_failure_does_not_block (fun _ => true) none ⟨"Call", "d", "o"⟩
    ⟨"p2", "f2"⟩ 500 (.callStarted "d" "o" "f2") rfl rfl

/-- C1 counterexample: ids `[a, a, b, a]` with `a = "xy"` and `b = "x"`
distinct, every message decoding successfully and every acknowledgment
succeeding — yet the callback fires once, not twice, because the dedup
check matches `"x"` as a substring of the stored `"xy"`. -/
theorem C1_counterexample_substring_swallows_b :
    ("xy" : String) ≠ "x" ∧
    callbackCount (runMessages (fun _ => true) none
      [⟨⟨"Call", "d", "o"⟩, ⟨"xy", "f1"⟩, .status 200⟩,
       ⟨⟨"Call", "d", "o"⟩, ⟨"xy", "f2"⟩, .status 200⟩,
       ⟨⟨"Call", "d", "o"⟩, ⟨"x", "f3"⟩, .status 200⟩,
       ⟨⟨"Call", "d", "o"⟩, ⟨"xy", "f4"⟩, .status 200⟩]).2 = 1 ∧
    ¬ callbackCount (runMessages (fun _ => true) none
      [⟨⟨"Call", "d", "o"⟩, ⟨"xy", "f1"⟩, .status 200⟩,
       ⟨⟨"Call", "d", "o"⟩, ⟨"xy", "f2"⟩, .status 200⟩,
       ⟨⟨"Call", "d", "o"⟩, ⟨"x", "f3"⟩, .status 200⟩,
       ⟨⟨"Call", "d", "o"⟩, ⟨"xy", "f4"⟩, .status 200⟩]).2 = 2 := by
  decide

/-- C1 amended: for every four inbound messages whose persistent ids are
`[a, a, b, a]` with `a` and `b` distinct and `b` not a substring of `a`,
where each message decodes successfully (to any notification — payloads,
variants and devices arbitrary and independent) and the attempted
acknowledgment exchanges do not raise, the callback fires exactly twice:
once with the notification decoded from the first `a` message and once
with the one decoded from the `b` message. -/
theorem C1_dedup_fires_twice (a b : String) (shouldAck : Notification → Bool)
    (m1 m2 m3 m4 : InboundMessage) (n1 n2 n3 n4 : Notification)
    (hid1 : m1.dataMessage.persistent_id = a)
    (hid2 : m2.dataMessage.persistent_id = a)
    (hid3 : m3.dataMessage.persistent_id = b)
    (hid4 : m4.dataMessage.persistent_id = a)
    (hdec1 : fromNotification m1.notification m1.dataMessage.id = .ok n1)
    (hdec2 : fromNotification m2.notification m2.dataMessage.id = .ok n2)
    (hdec3 : fromNotification m3.notification m3.dataMessage.id = .ok n3)
    (hdec4 : fromNotification m4.notification m4.dataMessage.id = .ok n4)
    (hab : a ≠ b) (hsub : pyIn b a = false)
    (h1 : m1.ackOutcome ≠ .raised) (h3 : m3.ackOutcome ≠ .raised) :
    callbackEvents (runMessages shouldAck none [m1, m2, m3, m4]).2 =
      [.callbackInvoked n1, .callbackInvoked n3] ∧
    callbackCount (runMessages shouldAck none [m1, m2, m3, m4]).2 = 2 := by
  have hnew1 : isDuplicate none m1.dataMessage.persistent_id = false := rfl
  obtain ⟨hs1, hc1⟩ :=
    on_notification_fresh_callback shouldAck none m1 n1 hnew1 hdec1 h1
  have hs1' : (on_notification shouldAck none m1).1 = some [a] := by
    rw [hs1, hid1]; rfl
  have hdup2 : isDuplicate (some [a]) m2.dataMessage.persistent_id = true := by
    rw [hid2]; simp [isDuplicate, pyIn_refl]
  have h2 := on_notification_dup shouldAck (some [a]) m2 hdup2
  have hnew3 : isDuplicate (some [a]) m3.dataMessage.persistent_id = false := by
    rw [hid3]; simp [isDuplicate, hsub]
  obtain ⟨hs3, hc3⟩ :=
    on_notification_fresh_callback shouldAck (some [a]) m3 n3 hnew3 hdec3 h3
  have hs3' : (on_notification shouldAck (some [a]) m3).1 = some [a, b] := by
    rw [hs3, hid3]; rfl
  have hdup4 : isDuplicate (some [a, b]) m4.dataMessage.persistent_id = true := by
    rw [hid4]; simp [isDuplicate, pyIn_refl]
  have h4 := on_notification_dup shouldAck (some [a, b]) m4 hdup4
  constructor
  · simp [runMessages, hs1', h2, hs3', h4, callbackEvents_append, hc1, hc3]
  · simp [callbackCount_eq_length, runMessages, hs1', h2, hs3', h4,
      callbackEvents_append, hc1, hc3]

/-- Witness for the amended C1 with `a = "p1"`, `b = "q2"` (neither a
substring of the other), mixed Call/CallEnd payloads from four different
devices, and a 500 on the third acknowledgment. -/
theorem C1_dedup_fires_twice_witness :
    callbackEvents (runMessages (fun _ => true) none
      [⟨⟨"Call", "d1", "o1"⟩, ⟨"p1", "f1"⟩, .status 200⟩,
       ⟨⟨"CallEnd", "d2", "o2"⟩, ⟨"p1", "f2"⟩, .status 200⟩,
       ⟨⟨"CallEnd", "d3", "o3"⟩, ⟨"q2", "f3"⟩, .status 500⟩,
       ⟨⟨"Call", "d4", "o4"⟩, ⟨"p1", "f4"⟩, .status 200⟩]).2 =
      [.callbackInvoked (.callStarted "d1" "o1" "f1"),
       .callbackInvoked (.callEnded "d3")] ∧
    callbackCount (runMessages (fun _ => true) none
      [⟨⟨"Call", "d1", "o1"⟩, ⟨"p1", "f1"⟩, .status 200⟩,
       ⟨⟨"CallEnd", "d2", "o2"⟩, ⟨"p1", "f2"⟩, .status 200⟩,
       ⟨⟨"CallEnd", "d3", "o3"⟩, ⟨"q2", "f3"⟩, .status 500⟩,
       ⟨⟨"Call", "d4", "o4"⟩, ⟨"p1", "f4"⟩, .status 200⟩]).2 = 2 :=
  C1_dedup_fires_twice "p1" "q2" (fun _ => true)
    ⟨⟨"Call", "d1", "o1"⟩, ⟨"p1", "f1"⟩, .status 200⟩
    ⟨⟨"CallEnd", "d2", "o2"⟩, ⟨"p1", "f2"⟩, .status 200⟩
    ⟨⟨"CallEnd", "d3", "o3"⟩, ⟨"q2", "f3"⟩, .status 500⟩
    ⟨⟨"Call", "d4", "o4"⟩, ⟨"p1", "f4"⟩, .status 200⟩
    (.callStarted "d1" "o1" "f1") (.callEnded "d2")
    (.callEnded "d3") (.callStarted "d4" "o4" "f4")
    rfl rfl rfl rfl rfl rfl rfl rfl
    (by decide) (by decide) (by decide) (by decide)

end BlueCon
